import Mathlib

/- Verification of the events-executor entities collector and the node topics
registration layer of an rclcpp snapshot.  The C++ sources are shallowly
embedded: entities (timers, subscriptions, services, clients, waitables) are
identified by natural-number ids, nodes carry their callback groups, and the
mutable per-entity callback registrations are explicit state. -/

namespace RclcppModel

/-- A callback group as seen by the collector: a weak reference that may be
dead (`alive = false`), the atomic `can_be_taken_from` flag, and the entities
it contains, listed by kind.  Entities are identified by numeric ids. -/
structure CallbackGroup where
  alive : Bool
  can_be_taken_from : Bool
  timers : List Nat
  subscriptions : List Nat
  services : List Nat
  clients : List Nat
  waitables : List Nat
deriving DecidableEq, Repr

/-- The `NodeBaseInterface` state the collector reads: the node id, the atomic
`associated_with_executor` flag, the outcomes of the two external
`rcl_guard_condition_set_events_executor_callback` calls (bind at `add_node`,
unbind at `remove_node`), and the callback groups. -/
structure NodeBase where
  nid : Nat
  hasExecutor : Bool
  bindOk : Bool
  unbindOk : Bool
  groups : List CallbackGroup
deriving DecidableEq, Repr

/-- The store of live node objects; a node id absent from the store stands for
a dead weak reference. -/
abbrev Env := List NodeBase

/-- Locking a weak node reference: find the live node with the given id. -/
def lookupNode (env : Env) (nid : Nat) : Option NodeBase :=
  env.find? (fun n => n.nid == nid)

/-- Store `b` into the `associated_with_executor` flag of the node `nid`. -/
def setHasExecutor (env : Env) (nid : Nat) (b : Bool) : Env :=
  env.map (fun n => if n.nid = nid then { n with hasExecutor := b } else n)

/-- Pointwise update of an entity-callback table. -/
def setCb (f : Nat → Option Nat) (k : Nat) (v : Option Nat) : Nat → Option Nat :=
  fun x => if x = k then v else f x

/-- Register the same callback value for every entity in a list, one
`set_events_executor_callback` call per entity. -/
def setManyCb (f : Nat → Option Nat) (ks : List Nat) (v : Option Nat) : Nat → Option Nat :=
  ks.foldl (fun acc k => setCb acc k v) f

/-- The errors the collector throws, one constructor per `throw` site. -/
inductive CollectorError where
  /-- thrown by `add_node` when the `associated_with_executor` exchange
  observes `true`; the usage error for a doubly added node. -/
  | alreadyAddedToExecutor
  /-- thrown by `add_node` when binding the node guard condition fails. -/
  | nodeGuardCallbackFailed
  /-- thrown by `remove_node` when unbinding the guard condition fails. -/
  | guardCallbackFailed
deriving DecidableEq, Repr

/-- The mutable state owned by the collector: the tracked weak node ids in
insertion order, the contents of the timers manager, the per-entity
events-executor callback registrations, and the per-node guard-condition
bindings. -/
@[ext]
structure CollectorState where
  weakNodes : List Nat
  timers : List Nat
  callbacks : Nat → Option Nat
  guards : Nat → Option Nat

namespace EventsExecutorEntitiesCollector

/-- One group pass of `set_entities_callbacks`: skip a dead group or one whose
`can_be_taken_from` flag is false; otherwise add every timer to the timers
manager and register the executor push callback on every subscription,
service, client and waitable. -/
def setGroupCallbacks (exec : Nat) (s : CollectorState) (g : CallbackGroup) : CollectorState :=
  if g.alive && g.can_be_taken_from then
    { s with
      timers := g.timers.foldl (fun ts t => ts ++ [t]) s.timers
      callbacks :=
        setManyCb (setManyCb (setManyCb (setManyCb s.callbacks
          g.subscriptions (some exec))
          g.services (some exec))
          g.clients (some exec))
          g.waitables (some exec) }
  else s

/-- `EventsExecutorEntitiesCollector::set_entities_callbacks`: walk all the
callback groups of a node. -/
def set_entities_callbacks (exec : Nat) (node : NodeBase) (s : CollectorState) : CollectorState :=
  node.groups.foldl (setGroupCallbacks exec) s

/-- `EventsExecutorEntitiesCollector::execute`: clear the timers manager, then
re-wire every live tracked node, skipping dead weak references. -/
def execute (exec : Nat) (env : Env) (s : CollectorState) : CollectorState :=
  let cleared := { s with timers := [] }
  s.weakNodes.foldl
    (fun st nid =>
      match lookupNode env nid with
      | none => st
      | some n => set_entities_callbacks exec n st)
    cleared

/-- Result of `add_node`: the thrown error if any, together with the node
store and collector state as the call leaves them. -/
structure AddNodeResult where
  err : Option CollectorError
  env : Env
  st : CollectorState

/-- `EventsExecutorEntitiesCollector::add_node`.  The `none` branch of the
lookup is unreachable in the C++ because the caller holds a live shared
pointer to the node.  The atomic exchange stores `true` unconditionally and
throws when the previous value was `true`; on the fresh path the node is
appended to the tracked list, wired, and its guard condition bound, with a
runtime error (after the mutations) when the external bind call fails. -/
def add_node (exec : Nat) (env : Env) (nid : Nat) (s : CollectorState) : AddNodeResult :=
  match lookupNode env nid with
  | none => { err := none, env := env, st := s }
  | some node =>
    if node.hasExecutor then
      { err := some .alreadyAddedToExecutor, env := setHasExecutor env nid true, st := s }
    else
      let env1 := setHasExecutor env nid true
      let s1 := { s with weakNodes := s.weakNodes ++ [nid] }
      let s2 := set_entities_callbacks exec node s1
      if node.bindOk then
        { err := none, env := env1
          st := { s2 with guards := setCb s2.guards nid (some exec) } }
      else
        { err := some .nodeGuardCallbackFailed, env := env1, st := s2 }

/-- Remove every timer of a list from the timers manager, one `remove_timer`
call per timer. -/
def removeManyTimers (ts : List Nat) (gts : List Nat) : List Nat :=
  gts.foldl (fun acc t => acc.erase t) ts

/-- One group pass of the unwiring loop in `remove_node`: skip a dead group or
one whose `can_be_taken_from` flag is false; otherwise remove its timers from
the timers manager and clear the callback of every subscription, service,
client and waitable. -/
def unsetGroupCallbacks (s : CollectorState) (g : CallbackGroup) : CollectorState :=
  if g.alive && g.can_be_taken_from then
    { s with
      timers := removeManyTimers s.timers g.timers
      callbacks :=
        setManyCb (setManyCb (setManyCb (setManyCb s.callbacks
          g.subscriptions none)
          g.services none)
          g.clients none)
          g.waitables none }
  else s

/-- The unwiring pass of `remove_node` over all groups of the node. -/
def unset_entities_callbacks (node : NodeBase) (s : CollectorState) : CollectorState :=
  node.groups.foldl unsetGroupCallbacks s

/-- Result of `remove_node`: the thrown error if any and the collector state.
The node store is never written by `remove_node`. -/
structure RemoveNodeResult where
  err : Option CollectorError
  st : CollectorState

/-- The match test of the `remove_node` loop: `node_it->lock() == node_ptr`,
true exactly when the stored weak id locks successfully and denotes the node
being removed. -/
def matchesNode (env : Env) (nid : Nat) (stored : Nat) : Bool :=
  stored == nid && (lookupNode env stored).isSome

/-- `EventsExecutorEntitiesCollector::remove_node`: scan the tracked list for
the first entry locking to the given node; when found, unbind its guard
condition (throwing on failure before any further mutation), unwire the
entities of its enabled groups, and erase that entry.  When no entry matches,
the call falls through with no effect and no error. -/
def remove_node (env : Env) (node : NodeBase) (s : CollectorState) : RemoveNodeResult :=
  if s.weakNodes.any (matchesNode env node.nid) then
    if node.unbindOk then
      let s1 := { s with guards := setCb s.guards node.nid none }
      let s2 := unset_entities_callbacks node s1
      { err := none
        st := { s2 with weakNodes := s2.weakNodes.eraseP (matchesNode env node.nid) } }
    else
      { err := some .guardCallbackFailed, st := s }
  else
    { err := none, st := s }

/-- The collector destructor: for every tracked weak node that still locks,
store `false` into its `associated_with_executor` flag, then clear the
tracked list. -/
def destructor (env : Env) (s : CollectorState) : Env × CollectorState :=
  let env1 := s.weakNodes.foldl
    (fun e nid =>
      match lookupNode e nid with
      | none => e
      | some _ => setHasExecutor e nid false)
    env
  (env1, { s with weakNodes := [] })

end EventsExecutorEntitiesCollector

/-- Characterization helper (following the spec wording): a group takes part
in wiring when it is alive and its `can_be_taken_from` flag is true. -/
def groupEnabled (g : CallbackGroup) : Bool :=
  g.alive && g.can_be_taken_from

/-- Characterization helper: the entities of a group that receive the
executor push callback, in registration order by kind. -/
def pushEntities (g : CallbackGroup) : List Nat :=
  g.subscriptions ++ g.services ++ g.clients ++ g.waitables

/-- Characterization helper: push entities of the enabled groups of a node. -/
def nodePushEntities (n : NodeBase) : List Nat :=
  (n.groups.filter groupEnabled).flatMap pushEntities

/-- Characterization helper: timers of the enabled groups of a node, in
registration order. -/
def nodeEnabledTimers (n : NodeBase) : List Nat :=
  (n.groups.filter groupEnabled).flatMap (fun g => g.timers)

/-- Characterization helper (following the spec wording for the rebuild): the
timers that a full rebuild over the given tracked ids leaves in the timers
manager, dead weak references contributing nothing. -/
def rebuildTimers (env : Env) (nids : List Nat) : List Nat :=
  nids.flatMap (fun nid =>
    match lookupNode env nid with
    | none => []
    | some n => nodeEnabledTimers n)

/-- Characterization helper: whether an entity is a push entity of an enabled
group of a live tracked node. -/
def trackedPushEntity (env : Env) (nids : List Nat) (e : Nat) : Bool :=
  nids.any (fun nid =>
    match lookupNode env nid with
    | none => false
    | some n => n.groups.any (fun g => groupEnabled g && (pushEntities g).contains e))

/-- The rmw history QoS policy values read by the registration checks. -/
inductive HistoryPolicy where
  | systemDefault
  | keepLast
  | keepAll
  | unknown
deriving DecidableEq, Repr

/-- The rmw durability QoS policy values read by the registration checks. -/
inductive DurabilityPolicy where
  | systemDefault
  | transientLocal
  | volatile
  | unknown
deriving DecidableEq, Repr

/-- The QoS fields of `rcl_publisher_options_t` and
`rcl_subscription_options_t` that `NodeTopics` reads. -/
structure RmwQos where
  history : HistoryPolicy
  depth : Nat
  durability : DurabilityPolicy
deriving DecidableEq, Repr

/-- Modelled from the spec: the process-wide intra-process manager boundary of
section 6 (`add_publisher -> id`, `add_subscription -> id`,
`get_subscription_by_id`), whose implementation is not among the shown
sources.  Ids are handed out from a counter; registrations are kept in
insertion order, subscriptions together with the registered intra-process
subscription object. -/
structure IntraProcessManager where
  nextId : Nat
  pubIds : List Nat
  subPairs : List (Nat × Nat)
deriving DecidableEq, Repr

/-- Modelled from the spec: registering a publisher returns a fresh numeric
id. -/
def IntraProcessManager.add_publisher (ipm : IntraProcessManager) :
    Nat × IntraProcessManager :=
  (ipm.nextId,
    { ipm with nextId := ipm.nextId + 1, pubIds := ipm.pubIds ++ [ipm.nextId] })

/-- Modelled from the spec: registering an intra-process subscription object
returns a fresh numeric id. -/
def IntraProcessManager.add_subscription (ipm : IntraProcessManager) (obj : Nat) :
    Nat × IntraProcessManager :=
  (ipm.nextId,
    { ipm with nextId := ipm.nextId + 1, subPairs := ipm.subPairs ++ [(ipm.nextId, obj)] })

/-- Modelled from the spec: look up the intra-process subscription object
registered under an id. -/
def IntraProcessManager.get_subscription_intra_process (ipm : IntraProcessManager)
    (ipId : Nat) : Option Nat :=
  (ipm.subPairs.find? (fun p => p.1 == ipId)).map (fun p => p.2)

/-- A publisher as `NodeTopics` sees it: its QoS-event handler entities and
the intra-process id stored by `setup_intra_process` when present. -/
structure Publisher where
  eventHandlers : List Nat
  intraProcessId : Option Nat
deriving DecidableEq, Repr

/-- A subscription as `NodeTopics` sees it: its own entity id, its QoS-event
handler entities, and the intra-process id stored by `setup_intra_process`
when present. -/
structure Subscription where
  sid : Nat
  eventHandlers : List Nat
  intraProcessId : Option Nat
deriving DecidableEq, Repr

/-- `SubscriptionBase::get_intra_process_id`: reads the stored id; a read
before `setup_intra_process` yields the zero-initialized value. -/
def Subscription.get_intra_process_id (s : Subscription) : Nat :=
  s.intraProcessId.getD 0

/-- The errors `NodeTopics` throws, one constructor per throw site.  The
first three stand for `std::invalid_argument`, the rest for
`std::runtime_error`; the notify constructors carry the transport error text
appended to the message. -/
inductive TopicsError where
  /-- intraprocess communication is not allowed with keep all history qos
  policy. -/
  | keepAllHistoryNotAllowed
  /-- intraprocess communication is not allowed with keep last history and 0
  depth qos policy (subscription path only). -/
  | keepLastZeroDepthNotAllowed
  /-- intraprocess communication allowed only with volatile durability. -/
  | nonVolatileDurabilityNotAllowed
  /-- cannot create publisher, callback group not in node. -/
  | publisherGroupNotInNode
  /-- cannot create subscription, callback group not in node. -/
  | subscriptionGroupNotInNode
  /-- failed to notify wait set on publisher creation, with the rmw error
  text. -/
  | publisherNotifyFailed (transportError : String)
  /-- failed to notify wait set on subscription creation, with the rmw error
  text. -/
  | subscriptionNotifyFailed (transportError : String)
deriving DecidableEq, Repr

namespace NodeTopics

/-- The `NodeBaseInterface` state that `NodeTopics` reads: which callback
group ids belong to the node, the default group, the outcome of
`rcl_trigger_guard_condition` on the notify guard condition, and the rmw
error text available when that trigger fails. -/
structure NodeBaseView where
  groupsInNode : List Nat
  defaultGroup : Nat
  triggerOk : Bool
  rmwError : String
deriving DecidableEq, Repr

/-- The mutable contents of the callback groups that `NodeTopics` writes:
per-group registered waitables (a slot may hold a null pointer) and
per-group registered subscriptions. -/
structure GroupsState where
  waitablesOf : Nat → List (Option Nat)
  subsOf : Nat → List Nat

/-- `CallbackGroup::add_waitable`. -/
def addGroupWaitable (gs : GroupsState) (g : Nat) (w : Option Nat) : GroupsState :=
  { gs with
    waitablesOf := fun x => if x = g then gs.waitablesOf g ++ [w] else gs.waitablesOf x }

/-- `CallbackGroup::add_subscription`. -/
def addGroupSubscription (gs : GroupsState) (g : Nat) (sid : Nat) : GroupsState :=
  { gs with
    subsOf := fun x => if x = g then gs.subsOf g ++ [sid] else gs.subsOf x }

/-- Result of `create_publisher`: the thrown error if any, the intra-process
manager as left by the call, and the returned publisher on success. -/
structure CreatePublisherResult where
  err : Option TopicsError
  ipm : IntraProcessManager
  publisher : Option Publisher

/-- `NodeTopics::create_publisher`.  The factory-built transport publisher is
the `publisher0` argument.  With intra-process requested the QoS is checked
(keep-all history, then non-volatile durability) before the manager is
touched; on success the publisher is registered and the returned id stored on
it via `setup_intra_process`. -/
def create_publisher (publisher0 : Publisher) (qos : RmwQos)
    (use_intra_process : Bool) (ipm : IntraProcessManager) : CreatePublisherResult :=
  if use_intra_process then
    if qos.history = HistoryPolicy.keepAll then
      { err := some TopicsError.keepAllHistoryNotAllowed, ipm := ipm, publisher := none }
    else if qos.durability ≠ DurabilityPolicy.volatile then
      { err := some TopicsError.nonVolatileDurabilityNotAllowed, ipm := ipm, publisher := none }
    else
      let r := ipm.add_publisher
      { err := none, ipm := r.2
        publisher := some { publisher0 with intraProcessId := some r.1 } }
  else
    { err := none, ipm := ipm, publisher := some publisher0 }

/-- Result of `create_subscription`. -/
structure CreateSubscriptionResult where
  err : Option TopicsError
  ipm : IntraProcessManager
  subscription : Option Subscription

/-- `NodeTopics::create_subscription`.  The factory-built transport
subscription is `subscription0` and the factory-built intra-process companion
object is `intraProcessObj`.  With intra-process requested the QoS is checked
(keep-all history, then keep-last history with zero depth, then non-volatile
durability) before the manager is touched; on success the companion is
registered and the returned id stored on the subscription. -/
def create_subscription (subscription0 : Subscription) (qos : RmwQos)
    (use_intra_process : Bool) (intraProcessObj : Nat)
    (ipm : IntraProcessManager) : CreateSubscriptionResult :=
  if use_intra_process then
    if qos.history = HistoryPolicy.keepAll then
      { err := some TopicsError.keepAllHistoryNotAllowed, ipm := ipm, subscription := none }
    else if qos.history = HistoryPolicy.keepLast ∧ qos.depth = 0 then
      { err := some TopicsError.keepLastZeroDepthNotAllowed, ipm := ipm, subscription := none }
    else if qos.durability ≠ DurabilityPolicy.volatile then
      { err := some TopicsError.nonVolatileDurabilityNotAllowed, ipm := ipm, subscription := none }
    else
      let r := ipm.add_subscription intraProcessObj
      { err := none, ipm := r.2
        subscription := some { subscription0 with intraProcessId := some r.1 } }
  else
    { err := none, ipm := ipm, subscription := some subscription0 }

/-- Result of `add_publisher` and `add_subscription`: the thrown error if any
and the callback-group contents as the call leaves them. -/
structure AddEndpointResult where
  err : Option TopicsError
  gs : GroupsState

/-- `NodeTopics::add_publisher`: check an explicit group for membership in
the node (throwing a runtime error otherwise), fall back to the default
group, register every event handler as a waitable, then trigger the notify
guard condition, a failure surfacing as a runtime error carrying the rmw
error text.  The waitable registrations are not rolled back on trigger
failure. -/
def add_publisher (node : NodeBaseView) (publisher : Publisher)
    (callback_group : Option Nat) (gs : GroupsState) : AddEndpointResult :=
  let resolved : Except TopicsError Nat :=
    match callback_group with
    | some g =>
      if node.groupsInNode.contains g then Except.ok g
      else Except.error TopicsError.publisherGroupNotInNode
    | none => Except.ok node.defaultGroup
  match resolved with
  | Except.error e => { err := some e, gs := gs }
  | Except.ok g =>
    let gs1 := publisher.eventHandlers.foldl (fun acc e => addGroupWaitable acc g (some e)) gs
    if node.triggerOk then
      { err := none, gs := gs1 }
    else
      { err := some (TopicsError.publisherNotifyFailed node.rmwError), gs := gs1 }

/-- `NodeTopics::add_subscription`: group resolution as for publishers, then
register the subscription itself with the group, its event handlers as
waitables, and, with intra-process requested, the companion object looked up
in the intra-process manager under the stored id; finally trigger the notify
guard condition, a failure surfacing as a runtime error carrying the rmw
error text. -/
def add_subscription (node : NodeBaseView) (subscription : Subscription)
    (callback_group : Option Nat) (use_intra_process : Bool)
    (ipm : IntraProcessManager) (gs : GroupsState) : AddEndpointResult :=
  let resolved : Except TopicsError Nat :=
    match callback_group with
    | some g =>
      if node.groupsInNode.contains g then Except.ok g
      else Except.error TopicsError.subscriptionGroupNotInNode
    | none => Except.ok node.defaultGroup
  match resolved with
  | Except.error e => { err := some e, gs := gs }
  | Except.ok g =>
    let gs1 := addGroupSubscription gs g subscription.sid
    let gs2 := subscription.eventHandlers.foldl (fun acc e => addGroupWaitable acc g (some e)) gs1
    let gs3 :=
      if use_intra_process then
        addGroupWaitable gs2 g
          (ipm.get_subscription_intra_process subscription.get_intra_process_id)
      else gs2
    if node.triggerOk then
      { err := none, gs := gs3 }
    else
      { err := some (TopicsError.subscriptionNotifyFailed node.rmwError), gs := gs3 }

end NodeTopics

/- Supporting lemmas about the collector operations. -/

theorem setManyCb_apply (f : Nat → Option Nat) (ks : List Nat) (v : Option Nat) (x : Nat) :
    setManyCb f ks v x = if x ∈ ks then v else f x := by
  induction ks generalizing f with
  | nil => simp [setManyCb]
  | cons k ks ih =>
    show setManyCb (setCb f k v) ks v x = _
    rw [ih]
    by_cases h1 : x ∈ ks
    · simp [h1]
    · by_cases h2 : x = k <;> simp [setCb, h1, h2]

namespace EventsExecutorEntitiesCollector

theorem setGroupCallbacks_callbacks (exec : Nat) (s : CollectorState) (g : CallbackGroup)
    (x : Nat) :
    (setGroupCallbacks exec s g).callbacks x =
      if groupEnabled g = true ∧ x ∈ pushEntities g then some exec else s.callbacks x := by
  unfold setGroupCallbacks
  by_cases hg : (g.alive && g.can_be_taken_from) = true
  · simp only [hg, if_true, setManyCb_apply]
    by_cases h1 : x ∈ g.subscriptions <;> by_cases h2 : x ∈ g.services <;>
      by_cases h3 : x ∈ g.clients <;> by_cases h4 : x ∈ g.waitables <;>
      simp [groupEnabled, pushEntities, hg, h1, h2, h3, h4]
  · simp [hg, groupEnabled]

theorem foldl_push_eq_append (l acc : List Nat) :
    l.foldl (fun ts t => ts ++ [t]) acc = acc ++ l := by
  induction l generalizing acc with
  | nil => simp
  | cons a l ih => simp [ih]

theorem setGroupCallbacks_timers (exec : Nat) (s : CollectorState) (g : CallbackGroup) :
    (setGroupCallbacks exec s g).timers =
      s.timers ++ (if groupEnabled g = true then g.timers else []) := by
  unfold setGroupCallbacks
  by_cases hg : (g.alive && g.can_be_taken_from) = true <;>
    simp [hg, groupEnabled, foldl_push_eq_append]

theorem setGroupCallbacks_weakNodes (exec : Nat) (s : CollectorState) (g : CallbackGroup) :
    (setGroupCallbacks exec s g).weakNodes = s.weakNodes := by
  unfold setGroupCallbacks
  by_cases hg : (g.alive && g.can_be_taken_from) = true <;> simp [hg]

theorem setGroupCallbacks_guards (exec : Nat) (s : CollectorState) (g : CallbackGroup) :
    (setGroupCallbacks exec s g).guards = s.guards := by
  unfold setGroupCallbacks
  by_cases hg : (g.alive && g.can_be_taken_from) = true <;> simp [hg]

theorem foldGroups_callbacks (exec : Nat) (gs : List CallbackGroup) (s : CollectorState)
    (x : Nat) :
    ((gs.foldl (setGroupCallbacks exec) s).callbacks x) =
      if x ∈ (gs.filter groupEnabled).flatMap pushEntities then some exec
      else s.callbacks x := by
  induction gs generalizing s with
  | nil => simp
  | cons g gs ih =>
    rw [List.foldl_cons, ih, setGroupCallbacks_callbacks]
    by_cases hg : groupEnabled g = true <;>
      by_cases hrest : x ∈ (gs.filter groupEnabled).flatMap pushEntities <;>
      by_cases hx : x ∈ pushEntities g <;>
      simp [List.filter_cons, hg, hrest, hx]

theorem foldGroups_timers (exec : Nat) (gs : List CallbackGroup) (s : CollectorState) :
    ((gs.foldl (setGroupCallbacks exec) s).timers) =
      s.timers ++ (gs.filter groupEnabled).flatMap (fun g => g.timers) := by
  induction gs generalizing s with
  | nil => simp
  | cons g gs ih =>
    rw [List.foldl_cons, ih, setGroupCallbacks_timers]
    by_cases hg : groupEnabled g = true <;> simp [List.filter_cons, hg]

theorem foldGroups_weakNodes (exec : Nat) (gs : List CallbackGroup) (s : CollectorState) :
    ((gs.foldl (setGroupCallbacks exec) s).weakNodes) = s.weakNodes := by
  induction gs generalizing s with
  | nil => rfl
  | cons g gs ih => rw [List.foldl_cons, ih, setGroupCallbacks_weakNodes]

theorem foldGroups_guards (exec : Nat) (gs : List CallbackGroup) (s : CollectorState) :
    ((gs.foldl (setGroupCallbacks exec) s).guards) = s.guards := by
  induction gs generalizing s with
  | nil => rfl
  | cons g gs ih => rw [List.foldl_cons, ih, setGroupCallbacks_guards]

theorem set_entities_callbacks_callbacks (exec : Nat) (node : NodeBase)
    (s : CollectorState) (x : Nat) :
    (set_entities_callbacks exec node s).callbacks x =
      if x ∈ nodePushEntities node then some exec else s.callbacks x := by
  unfold set_entities_callbacks nodePushEntities
  exact foldGroups_callbacks exec node.groups s x

theorem set_entities_callbacks_timers (exec : Nat) (node : NodeBase) (s : CollectorState) :
    (set_entities_callbacks exec node s).timers = s.timers ++ nodeEnabledTimers node := by
  unfold set_entities_callbacks nodeEnabledTimers
  exact foldGroups_timers exec node.groups s

theorem set_entities_callbacks_weakNodes (exec : Nat) (node : NodeBase) (s : CollectorState) :
    (set_entities_callbacks exec node s).weakNodes = s.weakNodes :=
  foldGroups_weakNodes exec node.groups s

theorem set_entities_callbacks_guards (exec : Nat) (node : NodeBase) (s : CollectorState) :
    (set_entities_callbacks exec node s).guards = s.guards :=
  foldGroups_guards exec node.groups s

theorem mem_nodePushEntities (n : NodeBase) (x : Nat) :
    x ∈ nodePushEntities n ↔
      (n.groups.any fun g => groupEnabled g && (pushEntities g).contains x) = true := by
  simp [nodePushEntities, List.mem_flatMap, List.mem_filter, List.any_eq_true]
  tauto

theorem trackedPushEntity_cons_none (env : Env) (nid : Nat) (nids : List Nat) (x : Nat)
    (h : lookupNode env nid = none) :
    trackedPushEntity env (nid :: nids) x = trackedPushEntity env nids x := by
  simp [trackedPushEntity, List.any_cons, h]

theorem trackedPushEntity_cons_some (env : Env) (nid : Nat) (nids : List Nat) (x : Nat)
    (n : NodeBase) (h : lookupNode env nid = some n) :
    trackedPushEntity env (nid :: nids) x =
      ((n.groups.any fun g => groupEnabled g && (pushEntities g).contains x) ||
       trackedPushEntity env nids x) := by
  simp [trackedPushEntity, List.any_cons, h]

theorem foldNodes_callbacks (exec : Nat) (env : Env) (nids : List Nat) (s : CollectorState)
    (x : Nat) :
    ((nids.foldl
        (fun st nid =>
          match lookupNode env nid with
          | none => st
          | some n => set_entities_callbacks exec n st)
        s).callbacks x) =
      if trackedPushEntity env nids x = true then some exec else s.callbacks x := by
  induction nids generalizing s with
  | nil => simp [trackedPushEntity]
  | cons nid nids ih =>
    rw [List.foldl_cons, ih]
    cases h : lookupNode env nid with
    | none => rw [trackedPushEntity_cons_none env nid nids x h]
    | some n =>
      rw [set_entities_callbacks_callbacks, trackedPushEntity_cons_some env nid nids x n h]
      by_cases hn : (n.groups.any fun g => groupEnabled g && (pushEntities g).contains x) = true
      · have hx : x ∈ nodePushEntities n := (mem_nodePushEntities n x).mpr hn
        rw [hn]
        by_cases hrest : trackedPushEntity env nids x = true
        · rw [if_pos hrest]
          simp
        · rw [if_neg hrest, if_pos hx]
          simp
      · have hx : x ∉ nodePushEntities n := fun hc => hn ((mem_nodePushEntities n x).mp hc)
        simp only [Bool.not_eq_true] at hn
        rw [hn]
        by_cases hrest : trackedPushEntity env nids x = true
        · rw [if_pos hrest, hrest]
          simp
        · rw [if_neg hrest, if_neg hx]
          simp only [Bool.not_eq_true] at hrest
          rw [hrest]
          simp

theorem foldNodes_timers (exec : Nat) (env : Env) (nids : List Nat) (s : CollectorState) :
    ((nids.foldl
        (fun st nid =>
          match lookupNode env nid with
          | none => st
          | some n => set_entities_callbacks exec n st)
        s).timers) = s.timers ++ rebuildTimers env nids := by
  induction nids generalizing s with
  | nil => simp [rebuildTimers]
  | cons nid nids ih =>
    rw [List.foldl_cons, ih]
    cases h : lookupNode env nid with
    | none => simp [rebuildTimers, h]
    | some n => rw [set_entities_callbacks_timers]; simp [rebuildTimers, h]

theorem foldNodes_weakNodes (exec : Nat) (env : Env) (nids : List Nat) (s : CollectorState) :
    ((nids.foldl
        (fun st nid =>
          match lookupNode env nid with
          | none => st
          | some n => set_entities_callbacks exec n st)
        s).weakNodes) = s.weakNodes := by
  induction nids generalizing s with
  | nil => rfl
  | cons nid nids ih =>
    rw [List.foldl_cons, ih]
    cases h : lookupNode env nid with
    | none => rfl
    | some n => rw [set_entities_callbacks_weakNodes]

theorem foldNodes_guards (exec : Nat) (env : Env) (nids : List Nat) (s : CollectorState) :
    ((nids.foldl
        (fun st nid =>
          match lookupNode env nid with
          | none => st
          | some n => set_entities_callbacks exec n st)
        s).guards) = s.guards := by
  induction nids generalizing s with
  | nil => rfl
  | cons nid nids ih =>
    rw [List.foldl_cons, ih]
    cases h : lookupNode env nid with
    | none => rfl
    | some n => rw [set_entities_callbacks_guards]

theorem execute_weakNodes (exec : Nat) (env : Env) (s : CollectorState) :
    (execute exec env s).weakNodes = s.weakNodes := by
  unfold execute
  rw [foldNodes_weakNodes]

theorem execute_guards (exec : Nat) (env : Env) (s : CollectorState) :
    (execute exec env s).guards = s.guards := by
  unfold execute
  rw [foldNodes_guards]

theorem execute_timers (exec : Nat) (env : Env) (s : CollectorState) :
    (execute exec env s).timers = rebuildTimers env s.weakNodes := by
  unfold execute
  rw [foldNodes_timers]
  simp

theorem execute_callbacks (exec : Nat) (env : Env) (s : CollectorState) (x : Nat) :
    (execute exec env s).callbacks x =
      if trackedPushEntity env s.weakNodes x = true then some exec else s.callbacks x := by
  unfold execute
  rw [foldNodes_callbacks]

theorem unsetGroupCallbacks_callbacks (s : CollectorState) (g : CallbackGroup) (x : Nat) :
    (unsetGroupCallbacks s g).callbacks x =
      if groupEnabled g = true ∧ x ∈ pushEntities g then none else s.callbacks x := by
  unfold unsetGroupCallbacks
  by_cases hg : (g.alive && g.can_be_taken_from) = true
  · simp only [hg, if_true, setManyCb_apply]
    by_cases h1 : x ∈ g.subscriptions <;> by_cases h2 : x ∈ g.services <;>
      by_cases h3 : x ∈ g.clients <;> by_cases h4 : x ∈ g.waitables <;>
      simp [groupEnabled, pushEntities, hg, h1, h2, h3, h4]
  · simp [hg, groupEnabled]

theorem unsetGroupCallbacks_weakNodes (s : CollectorState) (g : CallbackGroup) :
    (unsetGroupCallbacks s g).weakNodes = s.weakNodes := by
  unfold unsetGroupCallbacks
  by_cases hg : (g.alive && g.can_be_taken_from) = true <;> simp [hg]

theorem unsetGroupCallbacks_guards (s : CollectorState) (g : CallbackGroup) :
    (unsetGroupCallbacks s g).guards = s.guards := by
  unfold unsetGroupCallbacks
  by_cases hg : (g.alive && g.can_be_taken_from) = true <;> simp [hg]

theorem removeManyTimers_mem (gts : List Nat) (ts : List Nat) (t : Nat)
    (ht : t ∈ ts) (hnot : t ∉ gts) : t ∈ removeManyTimers ts gts := by
  induction gts generalizing ts with
  | nil => exact ht
  | cons a l ih =>
    have hne : t ≠ a := fun hc => hnot (hc ▸ List.mem_cons_self a l)
    exact ih (ts.erase a) ((List.mem_erase_of_ne hne).mpr ht)
      (fun hc => hnot (List.mem_cons_of_mem a hc))

theorem unsetGroupCallbacks_timers_mem (s : CollectorState) (g : CallbackGroup) (t : Nat)
    (ht : t ∈ s.timers) (hnot : groupEnabled g = true → t ∉ g.timers) :
    t ∈ (unsetGroupCallbacks s g).timers := by
  unfold unsetGroupCallbacks
  by_cases hg : (g.alive && g.can_be_taken_from) = true
  · simp only [hg, if_true]
    exact removeManyTimers_mem g.timers s.timers t ht (hnot hg)
  · simp [hg, ht]

theorem foldUnset_callbacks (gs : List CallbackGroup) (s : CollectorState) (x : Nat) :
    ((gs.foldl unsetGroupCallbacks s).callbacks x) =
      if x ∈ (gs.filter groupEnabled).flatMap pushEntities then none
      else s.callbacks x := by
  induction gs generalizing s with
  | nil => simp
  | cons g gs ih =>
    rw [List.foldl_cons, ih, unsetGroupCallbacks_callbacks]
    by_cases hg : groupEnabled g = true <;>
      by_cases hrest : x ∈ (gs.filter groupEnabled).flatMap pushEntities <;>
      by_cases hx : x ∈ pushEntities g <;>
      simp [List.filter_cons, hg, hrest, hx]

theorem foldUnset_timers_mem (gs : List CallbackGroup) (s : CollectorState) (t : Nat)
    (ht : t ∈ s.timers)
    (hnot : t ∉ (gs.filter groupEnabled).flatMap (fun g => g.timers)) :
    t ∈ (gs.foldl unsetGroupCallbacks s).timers := by
  induction gs generalizing s with
  | nil => exact ht
  | cons g gs ih =>
    rw [List.foldl_cons]
    have hg1 : groupEnabled g = true → t ∉ g.timers := by
      intro hg hc
      exact hnot (by simp [List.filter_cons, hg, List.mem_flatMap]; exact Or.inl hc)
    have hrest : t ∉ (gs.filter groupEnabled).flatMap (fun g => g.timers) := by
      intro hc
      apply hnot
      by_cases hg : groupEnabled g = true <;> simp [List.filter_cons, hg]
      · right
        simpa [List.mem_flatMap] using hc
      · simpa [List.mem_flatMap] using hc
    exact ih (unsetGroupCallbacks s g) (unsetGroupCallbacks_timers_mem s g t ht hg1) hrest

theorem foldUnset_weakNodes (gs : List CallbackGroup) (s : CollectorState) :
    ((gs.foldl unsetGroupCallbacks s).weakNodes) = s.weakNodes := by
  induction gs generalizing s with
  | nil => rfl
  | cons g gs ih => rw [List.foldl_cons, ih, unsetGroupCallbacks_weakNodes]

theorem foldUnset_guards (gs : List CallbackGroup) (s : CollectorState) :
    ((gs.foldl unsetGroupCallbacks s).guards) = s.guards := by
  induction gs generalizing s with
  | nil => rfl
  | cons g gs ih => rw [List.foldl_cons, ih, unsetGroupCallbacks_guards]

theorem unset_entities_callbacks_callbacks (node : NodeBase) (s : CollectorState) (x : Nat) :
    (unset_entities_callbacks node s).callbacks x =
      if x ∈ nodePushEntities node then none else s.callbacks x := by
  unfold unset_entities_callbacks nodePushEntities
  exact foldUnset_callbacks node.groups s x

theorem unset_entities_callbacks_timers_mem (node : NodeBase) (s : CollectorState) (t : Nat)
    (ht : t ∈ s.timers) (hnot : t ∉ nodeEnabledTimers node) :
    t ∈ (unset_entities_callbacks node s).timers :=
  foldUnset_timers_mem node.groups s t ht hnot

theorem unset_entities_callbacks_weakNodes (node : NodeBase) (s : CollectorState) :
    (unset_entities_callbacks node s).weakNodes = s.weakNodes :=
  foldUnset_weakNodes node.groups s

theorem eraseP_matchesNode (env : Env) (nid : Nat) (l : List Nat)
    (h : (lookupNode env nid).isSome = true) :
    l.eraseP (matchesNode env nid) = l.erase nid := by
  induction l with
  | nil => rfl
  | cons a l ih =>
    by_cases ha : a = nid
    · subst ha
      simp [List.eraseP_cons, List.erase_cons, matchesNode, h]
    · simp [List.eraseP_cons, List.erase_cons, matchesNode, ha, ih, Ne.symm ha]

theorem any_matchesNode (env : Env) (nid : Nat) (l : List Nat)
    (h : (lookupNode env nid).isSome = true) (hm : nid ∈ l) :
    l.any (matchesNode env nid) = true := by
  simp only [List.any_eq_true, matchesNode]
  exact ⟨nid, hm, by simp [h]⟩

theorem find?_nid (env : Env) (nid : Nat) (node : NodeBase)
    (h : lookupNode env nid = some node) : node.nid = nid := by
  have := List.find?_some h
  simpa using this

theorem lookup_setHasExecutor (env : Env) (nid : Nat) (b : Bool) (m : Nat) :
    lookupNode (setHasExecutor env nid b) m =
      (lookupNode env m).map
        (fun n => if n.nid = nid then { n with hasExecutor := b } else n) := by
  unfold lookupNode setHasExecutor
  rw [List.find?_map]
  have hp : ((fun n : NodeBase => n.nid == m) ∘
      (fun n => if n.nid = nid then { n with hasExecutor := b } else n)) =
      (fun n : NodeBase => n.nid == m) := by
    funext n
    by_cases h : n.nid = nid <;> simp [Function.comp, h]
  rw [hp]

theorem hasExecutor_eta (n : NodeBase) (h : n.hasExecutor = true) :
    { n with hasExecutor := true } = n := by
  cases n
  simp_all

theorem destructorFold (l : List Nat) (env : Env) :
    (l.foldl
        (fun e nid =>
          match lookupNode e nid with
          | none => e
          | some _ => setHasExecutor e nid false)
        env) =
      env.map (fun n => if n.nid ∈ l then { n with hasExecutor := false } else n) := by
  induction l generalizing env with
  | nil => simp
  | cons a l ih =>
    rw [List.foldl_cons]
    have hstep : (match lookupNode env a with
        | none => env
        | some _ => setHasExecutor env a false) =
        env.map (fun n => if n.nid = a then { n with hasExecutor := false } else n) := by
      cases h : lookupNode env a with
      | some n => rfl
      | none =>
        have hnone : ∀ n ∈ env, ¬(n.nid == a) = true := List.find?_eq_none.mp h
        have : env.map (fun n => if n.nid = a then { n with hasExecutor := false } else n)
            = env.map id := by
          apply List.map_congr_left
          intro n hn
          have : n.nid ≠ a := by simpa using hnone n hn
          simp [this]
        rw [this, List.map_id]
    rw [hstep, ih, List.map_map]
    apply List.map_congr_left
    intro n hn
    simp only [Function.comp]
    by_cases h1 : n.nid = a
    · by_cases h2 : n.nid ∈ l <;> simp [h1, h2]
    · by_cases h2 : n.nid ∈ l <;> simp [h1, h2]

theorem add_node_eq_already (exec : Nat) (env : Env) (nid : Nat) (s : CollectorState)
    (node : NodeBase) (hlook : lookupNode env nid = some node)
    (hfe : node.hasExecutor = true) :
    add_node exec env nid s =
      { err := some CollectorError.alreadyAddedToExecutor
        env := setHasExecutor env nid true, st := s } := by
  unfold add_node
  rw [hlook]
  simp [hfe]

theorem add_node_eq_fresh_ok (exec : Nat) (env : Env) (nid : Nat) (s : CollectorState)
    (node : NodeBase) (hlook : lookupNode env nid = some node)
    (hfe : node.hasExecutor = false) (hb : node.bindOk = true) :
    add_node exec env nid s =
      { err := none
        env := setHasExecutor env nid true
        st :=
          { set_entities_callbacks exec node { s with weakNodes := s.weakNodes ++ [nid] } with
            guards :=
              setCb (set_entities_callbacks exec node
                { s with weakNodes := s.weakNodes ++ [nid] }).guards nid (some exec) } } := by
  unfold add_node
  rw [hlook]
  simp [hfe, hb]

theorem add_node_eq_fresh_fail (exec : Nat) (env : Env) (nid : Nat) (s : CollectorState)
    (node : NodeBase) (hlook : lookupNode env nid = some node)
    (hfe : node.hasExecutor = false) (hb : node.bindOk = false) :
    add_node exec env nid s =
      { err := some CollectorError.nodeGuardCallbackFailed
        env := setHasExecutor env nid true
        st := set_entities_callbacks exec node { s with weakNodes := s.weakNodes ++ [nid] } } := by
  unfold add_node
  rw [hlook]
  simp [hfe, hb]

theorem remove_node_eq_found_ok (env : Env) (node : NodeBase) (s : CollectorState)
    (hlive : (lookupNode env node.nid).isSome = true)
    (hmem : node.nid ∈ s.weakNodes) (hu : node.unbindOk = true) :
    remove_node env node s =
      { err := none
        st :=
          { unset_entities_callbacks node { s with guards := setCb s.guards node.nid none } with
            weakNodes :=
              (unset_entities_callbacks node
                { s with guards := setCb s.guards node.nid none }).weakNodes.eraseP
                (matchesNode env node.nid) } } := by
  unfold remove_node
  rw [any_matchesNode env node.nid s.weakNodes hlive hmem]
  simp [hu]

/-- C4: a topology-change signal makes `execute` rebuild everything.  The
timers manager afterwards holds exactly the timers of the enabled groups of
the live tracked nodes, in tracking order, regardless of its previous
contents (it is cleared first); every subscription, service, client and
waitable of an enabled group of a live tracked node carries the executor push
callback; every other entity keeps its previous registration, so dead weak
nodes and dead or disabled groups are skipped without error; the tracked set
is unchanged. -/
theorem execute_full_rebuild (exec : Nat) (env : Env) (s : CollectorState) :
    (execute exec env s).weakNodes = s.weakNodes ∧
    (execute exec env s).timers = rebuildTimers env s.weakNodes ∧
    (∀ e, trackedPushEntity env s.weakNodes e = true →
      (execute exec env s).callbacks e = some exec) ∧
    (∀ e, trackedPushEntity env s.weakNodes e = false →
      (execute exec env s).callbacks e = s.callbacks e) := by
  refine ⟨execute_weakNodes exec env s, execute_timers exec env s, ?_, ?_⟩
  · intro e he
    rw [execute_callbacks, if_pos he]
  · intro e he
    rw [execute_callbacks]
    rw [he]
    simp

/-- C4 witness: a concrete collector tracking one live node with one enabled
group (subscription 5, timer 7) and one disabled group (subscription 6,
timer 8); after `execute` the timers manager holds exactly timer 7, the
subscription of the enabled group carries the push callback, and the one of
the disabled group keeps its cleared registration. -/
theorem execute_full_rebuild_witness :
    (execute 0 [⟨1, true, true, true,
        [⟨true, true, [7], [5], [], [], []⟩, ⟨true, false, [8], [6], [], [], []⟩]⟩]
      ⟨[1], [99], fun _ => none, fun _ => none⟩).timers = [7] ∧
    (execute 0 [⟨1, true, true, true,
        [⟨true, true, [7], [5], [], [], []⟩, ⟨true, false, [8], [6], [], [], []⟩]⟩]
      ⟨[1], [99], fun _ => none, fun _ => none⟩).callbacks 5 = some 0 ∧
    (execute 0 [⟨1, true, true, true,
        [⟨true, true, [7], [5], [], [], []⟩, ⟨true, false, [8], [6], [], [], []⟩]⟩]
      ⟨[1], [99], fun _ => none, fun _ => none⟩).callbacks 6 = none := by
  refine ⟨?_, ?_, ?_⟩
  · exact ((execute_full_rebuild 0 _ _).2.1).trans (by decide)
  · exact (execute_full_rebuild 0 _ _).2.2.1 5 (by decide)
  · exact ((execute_full_rebuild 0 _ _).2.2.2 6 (by decide)).trans rfl

/-- C7: the full rebuild is idempotent: running `execute` twice from any
collector state leaves exactly the state a single run produces, in the timers
manager, the callback registrations, the guard bindings and the tracked
set alike. -/
theorem execute_idempotent (exec : Nat) (env : Env) (s : CollectorState) :
    execute exec env (execute exec env s) = execute exec env s := by
  have hw := execute_weakNodes exec env s
  apply CollectorState.ext
  · rw [execute_weakNodes, execute_weakNodes]
  · rw [execute_timers, execute_timers, hw]
  · funext x
    rw [execute_callbacks, hw]
    by_cases h : trackedPushEntity env s.weakNodes x = true
    · rw [if_pos h, execute_callbacks, if_pos h]
    · rw [if_neg h]
  · rw [execute_guards, execute_guards]

/-- C5: `add_node` contract.  When the ownership flag of the node is already
set the call throws the usage error, the collector state is untouched and the
flag stays set; when it is clear, the call sets the flag, appends the node to
the tracked set, performs the initial wiring pass over the enabled groups of
the node, binds the notify guard condition of the node to the executor push
callback, and throws a runtime error exactly when the external binding call
reports failure. -/
theorem add_node_contract (exec : Nat) (env : Env) (node : NodeBase) (s : CollectorState)
    (hlook : lookupNode env node.nid = some node) :
    (node.hasExecutor = true →
      (add_node exec env node.nid s).err = some CollectorError.alreadyAddedToExecutor ∧
      (add_node exec env node.nid s).st = s ∧
      lookupNode (add_node exec env node.nid s).env node.nid = some node) ∧
    (node.hasExecutor = false →
      ((add_node exec env node.nid s).err = none ↔ node.bindOk = true) ∧
      (node.bindOk = false →
        (add_node exec env node.nid s).err = some CollectorError.nodeGuardCallbackFailed) ∧
      (add_node exec env node.nid s).st.weakNodes = s.weakNodes ++ [node.nid] ∧
      lookupNode (add_node exec env node.nid s).env node.nid =
        some { node with hasExecutor := true } ∧
      (add_node exec env node.nid s).st.timers = s.timers ++ nodeEnabledTimers node ∧
      (∀ e, (add_node exec env node.nid s).st.callbacks e =
        if e ∈ nodePushEntities node then some exec else s.callbacks e) ∧
      (node.bindOk = true → (add_node exec env node.nid s).st.guards node.nid = some exec)) := by
  constructor
  · intro hfe
    rw [add_node_eq_already exec env node.nid s node hlook hfe]
    refine ⟨rfl, rfl, ?_⟩
    rw [lookup_setHasExecutor, hlook]
    simp [hasExecutor_eta node hfe]
  · intro hfe
    cases hb : node.bindOk with
    | true =>
      rw [add_node_eq_fresh_ok exec env node.nid s node hlook hfe hb]
      refine ⟨by simp, fun hc => absurd hc (by decide), ?_, ?_, ?_, ?_, ?_⟩
      · rw [set_entities_callbacks_weakNodes]
      · rw [lookup_setHasExecutor, hlook]
        simp [hb]
      · rw [set_entities_callbacks_timers]
      · intro e
        rw [set_entities_callbacks_callbacks]
      · intro _
        simp [setCb]
    | false =>
      rw [add_node_eq_fresh_fail exec env node.nid s node hlook hfe hb]
      refine ⟨by simp, fun _ => rfl, ?_, ?_, ?_, ?_, ?_⟩
      · rw [set_entities_callbacks_weakNodes]
      · rw [lookup_setHasExecutor, hlook]
        simp [hb]
      · rw [set_entities_callbacks_timers]
      · intro e
        rw [set_entities_callbacks_callbacks]
      · intro hc
        exact absurd hc (by decide)

/-- C5 witness: adding an unowned node (id 1, successful binding, one enabled
group holding subscription 5 and timer 7) to the executor with token 0
succeeds, tracks node 1, wires timer 7 and subscription 5, and binds the
guard condition; a node whose flag is already set is rejected. -/
theorem add_node_contract_witness :
    ((add_node 0 [⟨1, false, true, true, [⟨true, true, [7], [5], [], [], []⟩]⟩] 1
        ⟨[], [], fun _ => none, fun _ => none⟩).err = none) ∧
    ((add_node 0 [⟨1, false, true, true, [⟨true, true, [7], [5], [], [], []⟩]⟩] 1
        ⟨[], [], fun _ => none, fun _ => none⟩).st.weakNodes = [1]) ∧
    ((add_node 0 [⟨1, false, true, true, [⟨true, true, [7], [5], [], [], []⟩]⟩] 1
        ⟨[], [], fun _ => none, fun _ => none⟩).st.timers = [7]) ∧
    ((add_node 0 [⟨1, false, true, true, [⟨true, true, [7], [5], [], [], []⟩]⟩] 1
        ⟨[], [], fun _ => none, fun _ => none⟩).st.callbacks 5 = some 0) ∧
    ((add_node 0 [⟨2, true, true, true, []⟩] 2
        ⟨[], [], fun _ => none, fun _ => none⟩).err
      = some CollectorError.alreadyAddedToExecutor) := by
  have h1 := (add_node_contract 0 [⟨1, false, true, true, [⟨true, true, [7], [5], [], [], []⟩]⟩]
    ⟨1, false, true, true, [⟨true, true, [7], [5], [], [], []⟩]⟩
    ⟨[], [], fun _ => none, fun _ => none⟩ (by decide)).2 rfl
  have h2 := (add_node_contract 0 [⟨2, true, true, true, []⟩]
    ⟨2, true, true, true, []⟩
    ⟨[], [], fun _ => none, fun _ => none⟩ (by decide)).1 rfl
  refine ⟨h1.1.mpr rfl, ?_, ?_, ?_, h2.1⟩
  · exact h1.2.2.1.trans (by decide)
  · exact h1.2.2.2.2.1.trans (by decide)
  · exact (h1.2.2.2.2.2.1 5).trans (by decide)

/-- C9: `add_node` is not atomic on binding failure.  With the ownership flag
initially clear and the external guard-condition binding failing, the runtime
error is thrown only after the node has been appended to the tracked set, its
entities wired and its flag set, and none of that is rolled back. -/
theorem add_node_no_rollback_on_bind_failure (exec : Nat) (env : Env) (node : NodeBase)
    (s : CollectorState) (hlook : lookupNode env node.nid = some node)
    (hfe : node.hasExecutor = false) (hb : node.bindOk = false) :
    (add_node exec env node.nid s).err = some CollectorError.nodeGuardCallbackFailed ∧
    node.nid ∈ (add_node exec env node.nid s).st.weakNodes ∧
    lookupNode (add_node exec env node.nid s).env node.nid =
      some { node with hasExecutor := true } ∧
    (add_node exec env node.nid s).st.timers = s.timers ++ nodeEnabledTimers node ∧
    (∀ e, e ∈ nodePushEntities node →
      (add_node exec env node.nid s).st.callbacks e = some exec) := by
  rw [add_node_eq_fresh_fail exec env node.nid s node hlook hfe hb]
  refine ⟨rfl, ?_, ?_, ?_, ?_⟩
  · rw [set_entities_callbacks_weakNodes]
    simp
  · rw [lookup_setHasExecutor, hlook]
    simp
  · rw [set_entities_callbacks_timers]
  · intro e he
    rw [set_entities_callbacks_callbacks, if_pos he]

/-- C9 witness: node 1 with a failing guard-condition binding and one enabled
group (subscription 5, timer 7): `add_node` throws the runtime error yet
leaves the node tracked, the timer registered and the subscription wired. -/
theorem add_node_no_rollback_witness :
    ((add_node 0 [⟨1, false, false, true, [⟨true, true, [7], [5], [], [], []⟩]⟩] 1
        ⟨[], [], fun _ => none, fun _ => none⟩).err
      = some CollectorError.nodeGuardCallbackFailed) ∧
    (1 ∈ (add_node 0 [⟨1, false, false, true, [⟨true, true, [7], [5], [], [], []⟩]⟩] 1
        ⟨[], [], fun _ => none, fun _ => none⟩).st.weakNodes) ∧
    ((add_node 0 [⟨1, false, false, true, [⟨true, true, [7], [5], [], [], []⟩]⟩] 1
        ⟨[], [], fun _ => none, fun _ => none⟩).st.callbacks 5 = some 0) := by
  have h := add_node_no_rollback_on_bind_failure 0
    [⟨1, false, false, true, [⟨true, true, [7], [5], [], [], []⟩]⟩]
    ⟨1, false, false, true, [⟨true, true, [7], [5], [], [], []⟩]⟩
    ⟨[], [], fun _ => none, fun _ => none⟩ (by decide) rfl rfl
  exact ⟨h.1, h.2.1, h.2.2.2.2 5 (by decide)⟩

/-- C10: `remove_node` unwires only enabled groups.  For a tracked live node
whose guard-condition unbinding succeeds, the node is erased from the tracked
set, but an entity that belongs only to a dead or disabled group keeps its
previously registered push callback, and such a timer stays in the timers
manager. -/
theorem remove_node_skips_disabled_groups (env : Env) (node : NodeBase) (s : CollectorState)
    (g : CallbackGroup) (e t : Nat)
    (hlook : lookupNode env node.nid = some node)
    (hmem : node.nid ∈ s.weakNodes) (hu : node.unbindOk = true)
    (hg : g ∈ node.groups) (hdis : groupEnabled g = false)
    (he : e ∈ pushEntities g) (henot : e ∉ nodePushEntities node)
    (ht : t ∈ g.timers) (htnot : t ∉ nodeEnabledTimers node) :
    (remove_node env node s).err = none ∧
    (remove_node env node s).st.weakNodes = s.weakNodes.erase node.nid ∧
    (remove_node env node s).st.callbacks e = s.callbacks e ∧
    (t ∈ s.timers → t ∈ (remove_node env node s).st.timers) := by
  have hlive : (lookupNode env node.nid).isSome = true := by rw [hlook]; rfl
  rw [remove_node_eq_found_ok env node s hlive hmem hu]
  refine ⟨rfl, ?_, ?_, ?_⟩
  · rw [unset_entities_callbacks_weakNodes]
    exact eraseP_matchesNode env node.nid s.weakNodes hlive
  · rw [unset_entities_callbacks_callbacks, if_neg henot]
  · intro hts
    exact unset_entities_callbacks_timers_mem node _ t hts htnot

/-- C10 witness: node 1 has an enabled group (subscription 5, timer 7) and a
disabled group (subscription 6, timer 8); both subscriptions are wired and
both timers registered.  `remove_node` succeeds, untracks the node, clears
subscription 5 but leaves the callback of subscription 6 registered and
timer 8 in the timers manager. -/
theorem remove_node_skips_disabled_groups_witness :
    ((remove_node [⟨1, true, true, true,
        [⟨true, true, [7], [5], [], [], []⟩, ⟨true, false, [8], [6], [], [], []⟩]⟩]
        ⟨1, true, true, true,
          [⟨true, true, [7], [5], [], [], []⟩, ⟨true, false, [8], [6], [], [], []⟩]⟩
        ⟨[1], [7, 8], fun x => if x = 5 ∨ x = 6 then some 0 else none,
          fun _ => none⟩).err = none) ∧
    ((remove_node [⟨1, true, true, true,
        [⟨true, true, [7], [5], [], [], []⟩, ⟨true, false, [8], [6], [], [], []⟩]⟩]
        ⟨1, true, true, true,
          [⟨true, true, [7], [5], [], [], []⟩, ⟨true, false, [8], [6], [], [], []⟩]⟩
        ⟨[1], [7, 8], fun x => if x = 5 ∨ x = 6 then some 0 else none,
          fun _ => none⟩).st.weakNodes = []) ∧
    ((remove_node [⟨1, true, true, true,
        [⟨true, true, [7], [5], [], [], []⟩, ⟨true, false, [8], [6], [], [], []⟩]⟩]
        ⟨1, true, true, true,
          [⟨true, true, [7], [5], [], [], []⟩, ⟨true, false, [8], [6], [], [], []⟩]⟩
        ⟨[1], [7, 8], fun x => if x = 5 ∨ x = 6 then some 0 else none,
          fun _ => none⟩).st.callbacks 6 = some 0) ∧
    (8 ∈ (remove_node [⟨1, true, true, true,
        [⟨true, true, [7], [5], [], [], []⟩, ⟨true, false, [8], [6], [], [], []⟩]⟩]
        ⟨1, true, true, true,
          [⟨true, true, [7], [5], [], [], []⟩, ⟨true, false, [8], [6], [], [], []⟩]⟩
        ⟨[1], [7, 8], fun x => if x = 5 ∨ x = 6 then some 0 else none,
          fun _ => none⟩).st.timers) := by
  have h := remove_node_skips_disabled_groups
    [⟨1, true, true, true,
      [⟨true, true, [7], [5], [], [], []⟩, ⟨true, false, [8], [6], [], [], []⟩]⟩]
    ⟨1, true, true, true,
      [⟨true, true, [7], [5], [], [], []⟩, ⟨true, false, [8], [6], [], [], []⟩]⟩
    ⟨[1], [7, 8], fun x => if x = 5 ∨ x = 6 then some 0 else none, fun _ => none⟩
    ⟨true, false, [8], [6], [], [], []⟩ 6 8
    (by decide) (by decide) rfl (by decide) rfl (by decide) (by decide) (by decide) (by decide)
  refine ⟨h.1, h.2.1.trans (by decide), h.2.2.1.trans (by decide), h.2.2.2 (by decide)⟩

/-- C8: the collector destructor disassociates every still-live tracked node
by storing false into its ownership flag, touches no other node and no other
field of a node, silently skips tracked ids whose weak reference is dead, and
leaves the tracked set empty. -/
theorem destructor_clears_ownership (env : Env) (s : CollectorState) :
    (destructor env s).2.weakNodes = [] ∧
    (destructor env s).2.timers = s.timers ∧
    (destructor env s).2.callbacks = s.callbacks ∧
    (destructor env s).2.guards = s.guards ∧
    (destructor env s).1 =
      env.map (fun n =>
        if n.nid ∈ s.weakNodes then { n with hasExecutor := false } else n) := by
  exact ⟨rfl, rfl, rfl, rfl, destructorFold s.weakNodes env⟩

/-- C1 at its failing input: node 1 is added to the executor with token 0
(success), removed again (success), and then added to the executor with
token 1.  Contrary to the claim, the third call throws the already-owned
usage error, because `remove_node` never clears the
`associated_with_executor` flag of the node (only the collector destructor
does). -/
theorem remove_then_add_other_executor_rejected :
    ((add_node 0 [⟨1, false, true, true, []⟩] 1
        ⟨[], [], fun _ => none, fun _ => none⟩).err = none) ∧
    ((remove_node (add_node 0 [⟨1, false, true, true, []⟩] 1
          ⟨[], [], fun _ => none, fun _ => none⟩).env
        ⟨1, true, true, true, []⟩
        (add_node 0 [⟨1, false, true, true, []⟩] 1
          ⟨[], [], fun _ => none, fun _ => none⟩).st).err = none) ∧
    ((add_node 1
        (add_node 0 [⟨1, false, true, true, []⟩] 1
          ⟨[], [], fun _ => none, fun _ => none⟩).env
        1
        (remove_node (add_node 0 [⟨1, false, true, true, []⟩] 1
            ⟨[], [], fun _ => none, fun _ => none⟩).env
          ⟨1, true, true, true, []⟩
          (add_node 0 [⟨1, false, true, true, []⟩] 1
            ⟨[], [], fun _ => none, fun _ => none⟩).st).st).err
      = some CollectorError.alreadyAddedToExecutor) := by
  exact ⟨rfl, rfl, rfl⟩

end EventsExecutorEntitiesCollector

/- Supporting lemmas about the topic registration operations. -/

namespace NodeTopics

theorem addGroupWaitable_waitablesOf (gs : GroupsState) (g : Nat) (w : Option Nat) (x : Nat) :
    (addGroupWaitable gs g w).waitablesOf x =
      if x = g then gs.waitablesOf g ++ [w] else gs.waitablesOf x := rfl

theorem addGroupWaitable_subsOf (gs : GroupsState) (g : Nat) (w : Option Nat) :
    (addGroupWaitable gs g w).subsOf = gs.subsOf := rfl

theorem addGroupSubscription_waitablesOf (gs : GroupsState) (g : Nat) (sid : Nat) :
    (addGroupSubscription gs g sid).waitablesOf = gs.waitablesOf := rfl

theorem addGroupSubscription_subsOf (gs : GroupsState) (g : Nat) (sid : Nat) (x : Nat) :
    (addGroupSubscription gs g sid).subsOf x =
      if x = g then gs.subsOf g ++ [sid] else gs.subsOf x := rfl

theorem foldAddWaitable_waitablesOf (hs : List Nat) (gs : GroupsState) (g x : Nat) :
    ((hs.foldl (fun acc e => addGroupWaitable acc g (some e)) gs).waitablesOf x) =
      if x = g then gs.waitablesOf g ++ hs.map some else gs.waitablesOf x := by
  induction hs generalizing gs with
  | nil => by_cases hx : x = g <;> simp [hx]
  | cons a hs ih =>
    rw [List.foldl_cons, ih]
    by_cases hx : x = g <;> simp [hx, addGroupWaitable_waitablesOf]

theorem foldAddWaitable_subsOf (hs : List Nat) (gs : GroupsState) (g : Nat) :
    ((hs.foldl (fun acc e => addGroupWaitable acc g (some e)) gs).subsOf) = gs.subsOf := by
  induction hs generalizing gs with
  | nil => rfl
  | cons a hs ih => rw [List.foldl_cons, ih, addGroupWaitable_subsOf]

theorem find?_append_fresh (l : List (Nat × Nat)) (k obj : Nat)
    (h : ∀ p ∈ l, p.1 ≠ k) :
    ((l ++ [(k, obj)]).find? (fun p => p.1 == k)) = some (k, obj) := by
  induction l with
  | nil => simp
  | cons a l ih =>
    have ha : ¬(a.1 == k) = true := by simpa using h a (List.mem_cons_self a l)
    have hstep : ((a :: l) ++ [(k, obj)]).find? (fun p => p.1 == k)
        = (l ++ [(k, obj)]).find? (fun p => p.1 == k) := by
      rw [List.cons_append]
      exact List.find?_cons_of_neg _ ha
    rw [hstep]
    exact ih (fun p hp => h p (List.mem_cons_of_mem a hp))

/-- C2: the QoS gate of `create_publisher` with intra-process requested.  The
call throws exactly when the QoS has keep-all history or a durability other
than volatile; a throw leaves the intra-process manager untouched and returns
no publisher; otherwise the publisher is registered with the manager and the
returned numeric id is stored on it. -/
theorem create_publisher_qos_gate (publisher0 : Publisher) (qos : RmwQos)
    (ipm : IntraProcessManager) :
    (((create_publisher publisher0 qos true ipm).err.isSome = true) ↔
      (qos.history = HistoryPolicy.keepAll ∨ qos.durability ≠ DurabilityPolicy.volatile)) ∧
    ((create_publisher publisher0 qos true ipm).err.isSome = true →
      (create_publisher publisher0 qos true ipm).ipm = ipm ∧
      (create_publisher publisher0 qos true ipm).publisher = none) ∧
    ((create_publisher publisher0 qos true ipm).err = none →
      ∃ pid,
        (create_publisher publisher0 qos true ipm).publisher =
          some { publisher0 with intraProcessId := some pid } ∧
        pid ∈ (create_publisher publisher0 qos true ipm).ipm.pubIds) := by
  by_cases h1 : qos.history = HistoryPolicy.keepAll
  · simp [create_publisher, h1]
  · by_cases h2 : qos.durability = DurabilityPolicy.volatile
    · refine ⟨by simp [create_publisher, h1, h2], by simp [create_publisher, h1, h2], ?_⟩
      intro _
      refine ⟨ipm.nextId, ?_, ?_⟩
      · simp [create_publisher, h1, h2, IntraProcessManager.add_publisher]
      · simp [create_publisher, h1, h2, IntraProcessManager.add_publisher]
    · simp [create_publisher, h1, h2]

/-- C2 witness: with keep-last depth 10 volatile QoS the call succeeds,
registers id 0 with a fresh manager and stores it on the publisher; with
keep-all history it throws and the manager is untouched. -/
theorem create_publisher_qos_gate_witness :
    ((create_publisher ⟨[], none⟩ ⟨HistoryPolicy.keepLast, 10, DurabilityPolicy.volatile⟩
        true ⟨0, [], []⟩).err = none) ∧
    ((create_publisher ⟨[], none⟩ ⟨HistoryPolicy.keepLast, 10, DurabilityPolicy.volatile⟩
        true ⟨0, [], []⟩).publisher = some ⟨[], some 0⟩) ∧
    ((create_publisher ⟨[], none⟩ ⟨HistoryPolicy.keepAll, 10, DurabilityPolicy.volatile⟩
        true ⟨0, [], []⟩).err.isSome = true) ∧
    ((create_publisher ⟨[], none⟩ ⟨HistoryPolicy.keepAll, 10, DurabilityPolicy.volatile⟩
        true ⟨0, [], []⟩).ipm = ⟨0, [], []⟩) := by
  have hok := create_publisher_qos_gate ⟨[], none⟩
    ⟨HistoryPolicy.keepLast, 10, DurabilityPolicy.volatile⟩ ⟨0, [], []⟩
  have hbad := create_publisher_qos_gate ⟨[], none⟩
    ⟨HistoryPolicy.keepAll, 10, DurabilityPolicy.volatile⟩ ⟨0, [], []⟩
  have hb : (create_publisher ⟨[], none⟩
      ⟨HistoryPolicy.keepAll, 10, DurabilityPolicy.volatile⟩ true ⟨0, [], []⟩).err.isSome
      = true := hbad.1.mpr (Or.inl rfl)
  refine ⟨by decide, ?_, hb, (hbad.2.1 hb).1⟩
  obtain ⟨pid, hpub, hmem⟩ := hok.2.2 (by decide)
  have hpid : pid = 0 := by
    have := hmem
    simp [create_publisher, IntraProcessManager.add_publisher] at this
    exact this
  rw [hpub, hpid]

/-- C3: the QoS gate of `create_subscription` with intra-process requested.
The call throws exactly when the QoS has keep-all history, keep-last history
with zero depth, or a durability other than volatile; a throw leaves the
intra-process manager untouched and returns no subscription; otherwise the
companion intra-process object is registered and the returned numeric id is
stored on the subscription, under which the companion can later be looked
up. -/
theorem create_subscription_qos_gate (subscription0 : Subscription) (qos : RmwQos)
    (intraProcessObj : Nat) (ipm : IntraProcessManager)
    (hfresh : ∀ p ∈ ipm.subPairs, p.1 ≠ ipm.nextId) :
    (((create_subscription subscription0 qos true intraProcessObj ipm).err.isSome = true) ↔
      (qos.history = HistoryPolicy.keepAll ∨
       (qos.history = HistoryPolicy.keepLast ∧ qos.depth = 0) ∨
       qos.durability ≠ DurabilityPolicy.volatile)) ∧
    ((create_subscription subscription0 qos true intraProcessObj ipm).err.isSome = true →
      (create_subscription subscription0 qos true intraProcessObj ipm).ipm = ipm ∧
      (create_subscription subscription0 qos true intraProcessObj ipm).subscription = none) ∧
    ((create_subscription subscription0 qos true intraProcessObj ipm).err = none →
      ∃ sid,
        (create_subscription subscription0 qos true intraProcessObj ipm).subscription =
          some { subscription0 with intraProcessId := some sid } ∧
        (create_subscription subscription0 qos true intraProcessObj ipm).ipm.get_subscription_intra_process
          sid = some intraProcessObj) := by
  by_cases h1 : qos.history = HistoryPolicy.keepAll
  · simp [create_subscription, h1]
  · by_cases h2 : qos.history = HistoryPolicy.keepLast ∧ qos.depth = 0
    · simp [create_subscription, h1, h2]
    · by_cases h3 : qos.durability = DurabilityPolicy.volatile
      · refine ⟨by simp [create_subscription, h1, h2, h3],
          by simp [create_subscription, h1, h2, h3], ?_⟩
        intro _
        refine ⟨ipm.nextId, ?_, ?_⟩
        · simp [create_subscription, h1, h2, h3, IntraProcessManager.add_subscription]
        · simp only [create_subscription, h1, h2, h3, IntraProcessManager.add_subscription,
            IntraProcessManager.get_subscription_intra_process]
          simp [find?_append_fresh ipm.subPairs ipm.nextId intraProcessObj hfresh, h1, h2, h3]
      · simp [create_subscription, h1, h2, h3]

/-- C3 witness: with keep-last depth 10 volatile QoS and companion object 42
the call succeeds, stores id 0 on the subscription and the companion is found
under id 0; with keep-last depth 0 it throws and the manager is untouched. -/
theorem create_subscription_qos_gate_witness :
    ((create_subscription ⟨3, [], none⟩
        ⟨HistoryPolicy.keepLast, 10, DurabilityPolicy.volatile⟩ true 42 ⟨0, [], []⟩).err
      = none) ∧
    ((create_subscription ⟨3, [], none⟩
        ⟨HistoryPolicy.keepLast, 10, DurabilityPolicy.volatile⟩ true 42
        ⟨0, [], []⟩).subscription = some ⟨3, [], some 0⟩) ∧
    ((create_subscription ⟨3, [], none⟩
        ⟨HistoryPolicy.keepLast, 10, DurabilityPolicy.volatile⟩ true 42
        ⟨0, [], []⟩).ipm.get_subscription_intra_process 0 = some 42) ∧
    ((create_subscription ⟨3, [], none⟩
        ⟨HistoryPolicy.keepLast, 0, DurabilityPolicy.volatile⟩ true 42
        ⟨0, [], []⟩).err.isSome = true) ∧
    ((create_subscription ⟨3, [], none⟩
        ⟨HistoryPolicy.keepLast, 0, DurabilityPolicy.volatile⟩ true 42
        ⟨0, [], []⟩).ipm = ⟨0, [], []⟩) := by
  have hok := create_subscription_qos_gate ⟨3, [], none⟩
    ⟨HistoryPolicy.keepLast, 10, DurabilityPolicy.volatile⟩ 42 ⟨0, [], []⟩ (by simp)
  have hbad := create_subscription_qos_gate ⟨3, [], none⟩
    ⟨HistoryPolicy.keepLast, 0, DurabilityPolicy.volatile⟩ 42 ⟨0, [], []⟩ (by simp)
  have hb : (create_subscription ⟨3, [], none⟩
      ⟨HistoryPolicy.keepLast, 0, DurabilityPolicy.volatile⟩ true 42
      ⟨0, [], []⟩).err.isSome = true := hbad.1.mpr (Or.inr (Or.inl ⟨rfl, rfl⟩))
  obtain ⟨sid, hsub, hget⟩ := hok.2.2 (by decide)
  have hsid : sid = 0 := by
    have := hget
    simp [create_subscription, IntraProcessManager.add_subscription,
      IntraProcessManager.get_subscription_intra_process] at this
    omega
  refine ⟨by decide, ?_, ?_, hb, (hbad.2.1 hb).1⟩
  · rw [hsub, hsid]
  · rw [hsid] at hget
    exact hget

/-- C6: the group-assignment and notification contract of `add_publisher` and
`add_subscription`.  An explicit callback group not belonging to the node is
rejected with a runtime error and nothing is registered; a null group falls
back to the default group of the node; the QoS-event handler entities of the
endpoint are registered as waitables in the resolved group, the subscription
itself is registered with the group, and with intra-process requested the
companion object looked up in the intra-process manager is additionally
registered as a waitable; afterwards the notify guard condition is triggered,
a failure surfacing as a runtime error carrying the transport error text. -/
theorem add_endpoint_contract (node : NodeBaseView) (publisher : Publisher)
    (subscription : Subscription) (g : Nat) (uip : Bool)
    (ipm : IntraProcessManager) (gs : GroupsState) :
    (g ∉ node.groupsInNode →
      (add_publisher node publisher (some g) gs).err
          = some TopicsError.publisherGroupNotInNode ∧
      (add_publisher node publisher (some g) gs).gs = gs ∧
      (add_subscription node subscription (some g) uip ipm gs).err
          = some TopicsError.subscriptionGroupNotInNode ∧
      (add_subscription node subscription (some g) uip ipm gs).gs = gs) ∧
    (∀ e, e ∈ publisher.eventHandlers →
      some e ∈ (add_publisher node publisher none gs).gs.waitablesOf node.defaultGroup) ∧
    (g ∈ node.groupsInNode →
      (∀ e, e ∈ publisher.eventHandlers →
        some e ∈ (add_publisher node publisher (some g) gs).gs.waitablesOf g) ∧
      (∀ e, e ∈ subscription.eventHandlers →
        some e ∈ (add_subscription node subscription (some g) uip ipm gs).gs.waitablesOf g) ∧
      (uip = true →
        ipm.get_subscription_intra_process subscription.get_intra_process_id
          ∈ (add_subscription node subscription (some g) uip ipm gs).gs.waitablesOf g) ∧
      subscription.sid ∈ (add_subscription node subscription (some g) uip ipm gs).gs.subsOf g) ∧
    (node.triggerOk = false →
      (add_publisher node publisher none gs).err
        = some (TopicsError.publisherNotifyFailed node.rmwError) ∧
      (add_subscription node subscription none uip ipm gs).err
        = some (TopicsError.subscriptionNotifyFailed node.rmwError)) ∧
    (node.triggerOk = true →
      (add_publisher node publisher none gs).err = none ∧
      (add_subscription node subscription none uip ipm gs).err = none) := by
  refine ⟨?_, ?_, ?_, ?_, ?_⟩
  · intro hg
    refine ⟨?_, ?_, ?_, ?_⟩ <;> simp [add_publisher, add_subscription, hg]
  · intro e he
    by_cases ht : node.triggerOk <;>
      simp [add_publisher, ht, foldAddWaitable_waitablesOf, he]
  · intro hg
    refine ⟨?_, ?_, ?_, ?_⟩
    · intro e he
      by_cases ht : node.triggerOk <;>
        simp [add_publisher, hg, ht, foldAddWaitable_waitablesOf, he]
    · intro e he
      by_cases ht : node.triggerOk <;> by_cases hu : uip = true <;>
        simp [add_subscription, hg, ht, hu, foldAddWaitable_waitablesOf,
          addGroupWaitable_waitablesOf, addGroupSubscription_waitablesOf, he]
    · intro hu
      by_cases ht : node.triggerOk <;>
        simp [add_subscription, hg, ht, hu, foldAddWaitable_waitablesOf,
          addGroupWaitable_waitablesOf, addGroupSubscription_waitablesOf]
    · by_cases ht : node.triggerOk <;> by_cases hu : uip = true <;>
        simp [add_subscription, hg, ht, hu, foldAddWaitable_subsOf,
          addGroupWaitable_subsOf, addGroupSubscription_subsOf]
  · intro ht
    constructor <;> simp [add_publisher, add_subscription, ht]
  · intro ht
    constructor <;> simp [add_publisher, add_subscription, ht]

/-- C6 witness: a node with groups 1 and 2 (default 1) and a working trigger.
Adding a publisher with event handler 9 and no explicit group registers the
handler in group 1 and succeeds; adding an intra-process subscription (id 3,
stored intra-process id 0, companion 42 registered in the manager) to group 2
registers the subscription, and the companion waitable; group 7 is rejected. -/
theorem add_endpoint_contract_witness :
    ((add_publisher ⟨[1, 2], 1, true, "err"⟩ ⟨[9], none⟩ none
        ⟨fun _ => [], fun _ => []⟩).err = none) ∧
    (some 9 ∈ (add_publisher ⟨[1, 2], 1, true, "err"⟩ ⟨[9], none⟩ none
        ⟨fun _ => [], fun _ => []⟩).gs.waitablesOf 1) ∧
    (some 42 ∈ (add_subscription ⟨[1, 2], 1, true, "err"⟩ ⟨3, [], some 0⟩ (some 2) true
        ⟨1, [], [(0, 42)]⟩ ⟨fun _ => [], fun _ => []⟩).gs.waitablesOf 2) ∧
    (3 ∈ (add_subscription ⟨[1, 2], 1, true, "err"⟩ ⟨3, [], some 0⟩ (some 2) true
        ⟨1, [], [(0, 42)]⟩ ⟨fun _ => [], fun _ => []⟩).gs.subsOf 2) ∧
    ((add_publisher ⟨[1, 2], 1, true, "err"⟩ ⟨[9], none⟩ (some 7)
        ⟨fun _ => [], fun _ => []⟩).err = some TopicsError.publisherGroupNotInNode) := by
  have h := add_endpoint_contract ⟨[1, 2], 1, true, "err"⟩ ⟨[9], none⟩ ⟨3, [], some 0⟩
    2 true ⟨1, [], [(0, 42)]⟩ ⟨fun _ => [], fun _ => []⟩
  have hbad := add_endpoint_contract ⟨[1, 2], 1, true, "err"⟩ ⟨[9], none⟩ ⟨3, [], some 0⟩
    7 true ⟨1, [], [(0, 42)]⟩ ⟨fun _ => [], fun _ => []⟩
  have hcomp := (h.2.2.1 (by decide)).2.2.1 rfl
  refine ⟨(h.2.2.2.2 rfl).1, h.2.1 9 (by decide), ?_, (h.2.2.1 (by decide)).2.2.2,
    (hbad.1 (by decide)).1⟩
  have hval : (IntraProcessManager.get_subscription_intra_process ⟨1, [], [(0, 42)]⟩
      (Subscription.get_intra_process_id ⟨3, [], some 0⟩)) = some 42 := by decide
  rw [hval] at hcomp
  exact hcomp

end NodeTopics

end RclcppModel
